import Mathlib

/-
Verification of the FSDP mesh-metadata layer
(`torch/distributed/_composable/fsdp/_fsdp_common.py`).

The Python module is shallowly embedded: each dataclass `__post_init__`
becomes an explicit state-transforming function returning
`Except String MeshInfoState` (a raised `AssertionError` / `IndexError`
becomes `Except.error`), and each pure helper becomes a Lean function on
lists modelling `torch.Size` / the split dimension of a tensor.
-/

set_option autoImplicit false

/-- A device mesh, as consumed by the mesh-info classes: per-dimension
sizes (`mesh.size(dim)`) and, for the current process, its rank inside the
communication sub-group along each dimension
(`mesh.get_group(dim).rank()`), which is its coordinate along that
dimension of the grid. -/
structure DeviceMesh where
  sizes : List Nat
  coords : List Nat
  deriving Repr, DecidableEq

/-- `mesh.size(dim)`: size of dimension `dim`; an out-of-range dimension
raises. -/
def DeviceMesh.size (m : DeviceMesh) (dim : Nat) : Except String Nat :=
  match m.sizes[dim]? with
  | some n => Except.ok n
  | none => Except.error "invalid mesh dim"

/-- `mesh.get_group(dim).rank()`: the current process's rank within the
sub-group along `dim`, i.e. its coordinate along that dimension. -/
def DeviceMesh.groupRank (m : DeviceMesh) (dim : Nat) : Except String Nat :=
  match m.coords[dim]? with
  | some r => Except.ok r
  | none => Except.error "invalid mesh dim"

/-- The attribute state of a `DataParallelMeshInfo` instance (and of its
subclasses).  The four derived attributes are `none` while unset: a Python
dataclass instance does not have `shard_mesh_size` etc. until the
corresponding `__post_init__` body assigns them. -/
structure MeshInfoState where
  mesh : DeviceMesh
  shard_mesh_dim : Option Nat
  replicate_mesh_dim : Option Nat
  shard_mesh_size : Option Nat
  shard_mesh_rank : Option Nat
  replicate_mesh_size : Option Nat
  replicate_mesh_rank : Option Nat
  deriving Repr, DecidableEq

/-- The freshly-initialized dataclass state, before any `__post_init__`
runs: the three declared fields are set, no derived attribute exists. -/
def mkMeshInfoState (mesh : DeviceMesh) (sdim rdim : Option Nat) : MeshInfoState :=
  ⟨mesh, sdim, rdim, none, none, none, none⟩

/-- `DataParallelMeshInfo.__post_init__`: raises an `AssertionError` when
both `shard_mesh_dim` and `replicate_mesh_dim` are `None`. -/
def DataParallelMeshInfo.post_init (s : MeshInfoState) : Except String MeshInfoState :=
  match s.shard_mesh_dim, s.replicate_mesh_dim with
  | none, none =>
    Except.error "At least one of shard_mesh_dim and replicate_mesh_dim must not be None"
  | _, _ => Except.ok s

/-- The body of `FSDPMeshInfo.__post_init__` after its `super()` call:
requires a non-`None` `shard_mesh_dim`, then derives `shard_mesh_size`
and `shard_mesh_rank` from the mesh. -/
def FSDPMeshInfo.post_init_own (s : MeshInfoState) : Except String MeshInfoState :=
  match s.shard_mesh_dim with
  | none => Except.error "Expects non-None shard_mesh_dim"
  | some d => do
    let sz ← s.mesh.size d
    let rk ← s.mesh.groupRank d
    Except.ok { s with shard_mesh_size := some sz, shard_mesh_rank := some rk }

/-- The body of `DDPMeshInfo.__post_init__` after its `super()` call:
requires a non-`None` `replicate_mesh_dim`, then derives
`replicate_mesh_size` and `replicate_mesh_rank` from the mesh. -/
def DDPMeshInfo.post_init_own (s : MeshInfoState) : Except String MeshInfoState :=
  match s.replicate_mesh_dim with
  | none => Except.error "Expects non-None replicate_mesh_dim"
  | some d => do
    let sz ← s.mesh.size d
    let rk ← s.mesh.groupRank d
    Except.ok { s with replicate_mesh_size := some sz, replicate_mesh_rank := some rk }

/-- Constructing a `DataParallelMeshInfo(mesh, sdim, rdim)`: fields are
assigned, then `__post_init__` runs. -/
def DataParallelMeshInfo.construct (mesh : DeviceMesh) (sdim rdim : Option Nat) :
    Except String MeshInfoState :=
  DataParallelMeshInfo.post_init (mkMeshInfoState mesh sdim rdim)

/-- Constructing an `FSDPMeshInfo(mesh, sdim, rdim)`: on an `FSDPMeshInfo`
instance the `super().__post_init__()` call inside
`FSDPMeshInfo.__post_init__` dispatches to
`DataParallelMeshInfo.__post_init__`, then the own body runs. -/
def FSDPMeshInfo.construct (mesh : DeviceMesh) (sdim rdim : Option Nat) :
    Except String MeshInfoState := do
  let s ← DataParallelMeshInfo.post_init (mkMeshInfoState mesh sdim rdim)
  FSDPMeshInfo.post_init_own s

/-- Constructing a `DDPMeshInfo(mesh, sdim, rdim)`: on a `DDPMeshInfo`
instance the `super().__post_init__()` call inside
`DDPMeshInfo.__post_init__` dispatches to
`DataParallelMeshInfo.__post_init__`, then the own body runs. -/
def DDPMeshInfo.construct (mesh : DeviceMesh) (sdim rdim : Option Nat) :
    Except String MeshInfoState := do
  let s ← DataParallelMeshInfo.post_init (mkMeshInfoState mesh sdim rdim)
  DDPMeshInfo.post_init_own s

/-- Constructing an `HSDPMeshInfo(mesh, sdim, rdim)`.  The method
resolution order of `HSDPMeshInfo(FSDPMeshInfo, DDPMeshInfo)` is
`[HSDPMeshInfo, FSDPMeshInfo, DDPMeshInfo, DataParallelMeshInfo]`, so in
`HSDPMeshInfo.__post_init__`:

* `super(FSDPMeshInfo, self).__post_init__()` dispatches to the class
  after `FSDPMeshInfo` in that order, i.e. `DDPMeshInfo.__post_init__`,
  whose own zero-argument `super().__post_init__()` in turn dispatches to
  `DataParallelMeshInfo.__post_init__`;
* `super(DDPMeshInfo, self).__post_init__()` dispatches to
  `DataParallelMeshInfo.__post_init__`.

`FSDPMeshInfo.__post_init__` is therefore never executed: neither line
reaches it. -/
def HSDPMeshInfo.construct (mesh : DeviceMesh) (sdim rdim : Option Nat) :
    Except String MeshInfoState := do
  let s0 := mkMeshInfoState mesh sdim rdim
  let s1 ← DataParallelMeshInfo.post_init s0
  let s2 ← DDPMeshInfo.post_init_own s1
  let s3 ← DataParallelMeshInfo.post_init s2
  Except.ok s3

/-- `_get_dim0_padded_size(tensor_size, dim0_factor)` on a `torch.Size`
modelled as a `List Nat`; `tensor_size[0]` on an empty size raises
`IndexError`, hence the `Option`.  Requires `dim0_factor > 0` to mean the
same thing as the Python (`%` by zero raises there). -/
def _get_dim0_padded_size : List Nat → Nat → Option (List Nat)
  | [], _ => none
  | d0 :: rest, dim0_factor =>
    if d0 < dim0_factor then
      some (dim0_factor :: rest)
    else if d0 % dim0_factor ≠ 0 then
      some ((d0 + dim0_factor - d0 % dim0_factor) :: rest)
    else
      some (d0 :: rest)

/-- A tensor as seen by `_chunk_with_empty`, along its split dimension
`dim`: `data` holds the slices of the tensor along that dimension (one
entry per index), plus the metadata the claims mention. -/
structure Tensor where
  data : List Int
  dtype : String
  device : String
  requires_grad : Bool
  deriving Repr, DecidableEq

/-- `t.new_empty(0)`: a fresh tensor of size 0 with the same dtype and
device as `t` (and `requires_grad=False`, the `new_empty` default). -/
def Tensor.new_empty0 (t : Tensor) : Tensor :=
  ⟨[], t.dtype, t.device, false⟩

/-- Modelled from the spec: `torch.chunk` itself is repository code that
is not under the provided sources; per the spec it splits a tensor of
dimension size `dimSize` into contiguous pieces of size
`ceil(dimSize / numChunks)` with a smaller final piece holding the
remainder, possibly yielding fewer than `numChunks` pieces; when
`dimSize = 0` every piece is empty and `numChunks` pieces result.  This
function gives the sizes of the produced pieces. -/
def torchChunkSizes (dimSize numChunks : Nat) : List Nat :=
  if dimSize = 0 then
    List.replicate numChunks 0
  else
    let splitSize := (dimSize + numChunks - 1) / numChunks
    List.replicate (dimSize / splitSize) splitSize ++
      (if dimSize % splitSize = 0 then [] else [dimSize % splitSize])

/-- Cut a list into consecutive pieces of the given sizes. -/
def splitBySizes : List Nat → List Int → List (List Int)
  | [], _ => []
  | n :: ns, xs => xs.take n :: splitBySizes ns (xs.drop n)

/-- Modelled from the spec: `torch.chunk(tensor, num_chunks, dim)` splits
`tensor` along `dim` into the pieces described by `torchChunkSizes`; it
raises when `num_chunks` is not positive. -/
def torch.chunk (tensor : Tensor) (num_chunks : Nat) : Option (List Tensor) :=
  if num_chunks = 0 then
    none
  else
    some ((splitBySizes (torchChunkSizes tensor.data.length num_chunks) tensor.data).map
      (fun d => ⟨d, tensor.dtype, tensor.device, tensor.requires_grad⟩))

/-- `_chunk_with_empty(tensor, num_chunks, dim)`: chunk, then append
`chunks[0].new_empty(0)` until there are `num_chunks` chunks; the
`chunks[0]` access raises `IndexError` if the chunk list were empty. -/
def _chunk_with_empty (tensor : Tensor) (num_chunks : Nat) : Option (List Tensor) := do
  let chunks ← torch.chunk tensor num_chunks
  if chunks.length < num_chunks then
    match chunks with
    | [] => none
    | c0 :: _ =>
      some (chunks ++ List.replicate (num_chunks - chunks.length) c0.new_empty0)
  else
    some chunks

/-- A module as seen by the composability check: it carries the
composability registry that `_get_registry` looks up for it.  Modelled
from the spec: `_get_registry` (imported from the `contract` module,
which is not under the provided sources) is "a composability registry
lookup keyed by module identity returning the set of already-applied
parallelism strategy names", or `None` when nothing was applied. -/
structure NnModule where
  registry : Option (List String)
  deriving Repr, DecidableEq

/-- Modelled from the spec: the registry lookup returns the set of
already-applied parallelism strategy names for the module, or `None`. -/
def _get_registry (module : NnModule) : Option (List String) :=
  module.registry

/-- `_is_composable_with_fsdp(module)`: `True` when no registry exists,
otherwise `True` exactly when `"replicate"` is not in the registry. -/
def _is_composable_with_fsdp (module : NnModule) : Bool :=
  match _get_registry module with
  | none => true
  | some registry => !(registry.contains "replicate")

/-- One line of diagnostic output produced by `_raise_assert_with_print`. -/
inductive PrintEvent where
  | rankLine (rank : Nat)
  | argsLine (args : List String)
  | stackTrace
  deriving Repr, DecidableEq

/-- `_raise_assert_with_print(*args)`: prints the current process rank,
then the arguments, then the stack, and raises `AssertionError(*args)`.
The result is the ordered print trace paired with the outcome; the
current rank (`dist.get_rank()`) is a parameter. -/
def _raise_assert_with_print (rank : Nat) (args : List String) :
    List PrintEvent × Except (List String) Unit :=
  ([PrintEvent.rankLine rank, PrintEvent.argsLine args, PrintEvent.stackTrace],
    Except.error args)

/-- Modelled from the spec: the `DTensor` low-level constructor (the
`DTensor` class is repository code that is not under the provided
sources) records the given local tensor and metadata as-is, copying no
data; constructing it directly, rather than through the differentiable
`DTensor.from_local`, attaches no automatic-differentiation bookkeeping,
recorded here as `grad_fn = none`. -/
structure DTensor where
  _local_tensor : Tensor
  device_mesh : DeviceMesh
  placements : List String
  shape : List Nat
  dtype : String
  requires_grad : Bool
  stride : List Nat
  grad_fn : Option String
  deriving Repr, DecidableEq

/-- `_from_local_no_grad(local_tensor, device_mesh, placements,
global_size, global_stride)`: builds the `DTensor` directly from the
local tensor with the given global shape and stride. -/
def _from_local_no_grad (local_tensor : Tensor) (device_mesh : DeviceMesh)
    (placements : List String) (global_size : List Nat)
    (global_stride : List Nat) : DTensor :=
  ⟨local_tensor, device_mesh, placements, global_size, local_tensor.dtype,
    local_tensor.requires_grad, global_stride, none⟩

lemma rounded_up_dvd (L F : Nat) (hF : 0 < F) (h2 : L % F ≠ 0) :
    F ∣ L + F - L % F := by
  have hd1 : F ∣ L - L % F := Nat.dvd_sub_mod L
  have hrle : L % F ≤ L := Nat.mod_le L F
  have hrlt : L % F < F := Nat.mod_lt L hF
  have hsplit : L + F - L % F = (L - L % F) + F := by
    generalize L % F = r at *
    omega
  rw [hsplit]
  exact Nat.dvd_add hd1 (Nat.dvd_refl F)

lemma rounded_up_least (L F m : Nat) (hF : 0 < F) (h2 : L % F ≠ 0)
    (hdm : F ∣ m) (hLm : L ≤ m) : L + F - L % F ≤ m := by
  have hd1 : F ∣ L - L % F := Nat.dvd_sub_mod L
  have hrle : L % F ≤ L := Nat.mod_le L F
  have hrlt : L % F < F := Nat.mod_lt L hF
  have hsub : F ∣ m - (L - L % F) := Nat.dvd_sub' hdm hd1
  have hpos : 0 < m - (L - L % F) := by
    generalize L % F = r at *
    omega
  have hge : F ≤ m - (L - L % F) := Nat.le_of_dvd hpos hsub
  generalize L % F = r at *
  omega

lemma mod_eq_zero_of_dvd_fact (L F : Nat) (hdvd : F ∣ L) : L % F = 0 := by
  obtain ⟨c, rfl⟩ := hdvd
  exact Nat.mul_mod_right F c

/-- C2: for every tensor size with leading dimension `L` and every factor
`F > 0`, `_get_dim0_padded_size` returns a size whose leading dimension is
exactly `F` when `L < F`, and otherwise the smallest multiple of `F` that
is at least `L` (equal to `L` itself when `F` divides `L`); the
non-leading dimensions are unchanged. -/
theorem get_dim0_padded_size_spec (L : Nat) (rest : List Nat) (F : Nat) (hF : 0 < F) :
    ∃ L2, _get_dim0_padded_size (L :: rest) F = some (L2 :: rest)
      ∧ (L < F → L2 = F)
      ∧ (F ≤ L → F ∣ L2 ∧ L ≤ L2 ∧ (∀ m, F ∣ m → L ≤ m → L2 ≤ m)
          ∧ (F ∣ L → L2 = L)) := by
  by_cases h1 : L < F
  · refine ⟨F, ?_, fun _ => rfl, fun h => absurd h (by omega)⟩
    simp [_get_dim0_padded_size, h1]
  · by_cases h2 : L % F = 0
    · refine ⟨L, ?_, fun h => absurd h h1, fun _ => ?_⟩
      · simp [_get_dim0_padded_size, h1, h2]
      · exact ⟨Nat.dvd_of_mod_eq_zero h2, Nat.le_refl L,
          fun m _ hm => hm, fun _ => rfl⟩
    · refine ⟨L + F - L % F, ?_, fun h => absurd h h1, fun _ => ?_⟩
      · simp [_get_dim0_padded_size, h1, h2]
      · refine ⟨rounded_up_dvd L F hF h2, ?_, fun m hdm hLm =>
          rounded_up_least L F m hF h2 hdm hLm, fun hdvd => absurd
            (mod_eq_zero_of_dvd_fact L F hdvd) h2⟩
        have hrlt : L % F < F := Nat.mod_lt L hF
        generalize L % F = r at *
        omega

/-- Witness instantiating the C2 theorem at `L = 10`, `rest = [7]`,
`F = 4`. -/
theorem get_dim0_padded_size_spec_witness :
    0 < 4 ∧
    ∃ L2, _get_dim0_padded_size (10 :: [7]) 4 = some (L2 :: [7])
      ∧ (10 < 4 → L2 = 4)
      ∧ (4 ≤ 10 → 4 ∣ L2 ∧ 10 ≤ L2 ∧ (∀ m, 4 ∣ m → 10 ≤ m → L2 ≤ m)
          ∧ (4 ∣ 10 → L2 = 10)) :=
  ⟨by decide, get_dim0_padded_size_spec 10 [7] 4 (by decide)⟩

/-- C6: `_get_dim0_padded_size` is idempotent: feeding its output back in
with the same positive factor returns the output unchanged. -/
theorem get_dim0_padded_size_idempotent (s t : List Nat) (F : Nat) (hF : 0 < F)
    (h : _get_dim0_padded_size s F = some t) :
    _get_dim0_padded_size t F = some t := by
  match s with
  | [] => simp [_get_dim0_padded_size] at h
  | L :: rest =>
    simp only [_get_dim0_padded_size] at h
    split_ifs at h with h1 h2
    · simp only [Option.some.injEq] at h
      subst h
      simp [_get_dim0_padded_size, Nat.mod_self]
    · simp only [Option.some.injEq] at h
      subst h
      have hdvd : F ∣ L + F - L % F := rounded_up_dvd L F hF h2
      have hmod : (L + F - L % F) % F = 0 :=
        mod_eq_zero_of_dvd_fact (L + F - L % F) F hdvd
      have hge : ¬ L + F - L % F < F := by
        have hrlt : L % F < F := Nat.mod_lt L hF
        generalize L % F = r at *
        omega
      simp [_get_dim0_padded_size, hge, hmod]
    · simp only [Option.some.injEq] at h
      subst h
      simp [_get_dim0_padded_size, h1, h2]

/-- Witness instantiating the C6 theorem at `s = [10, 7]`,
`t = [12, 7]`, `F = 4`. -/
theorem get_dim0_padded_size_idempotent_witness :
    (0 < 4 ∧ _get_dim0_padded_size [10, 7] 4 = some [12, 7]) ∧
    _get_dim0_padded_size [12, 7] 4 = some [12, 7] :=
  ⟨⟨by decide, by decide⟩,
    get_dim0_padded_size_idempotent [10, 7] [12, 7] 4 (by decide) (by decide)⟩

/-- C4: constructing `DataParallelMeshInfo` with both `shard_mesh_dim`
and `replicate_mesh_dim` unset always fails, for every mesh, with the
invalid-configuration `AssertionError`. -/
theorem dataParallel_both_none_invalid (mesh : DeviceMesh) :
    DataParallelMeshInfo.construct mesh none none =
      Except.error
        "At least one of shard_mesh_dim and replicate_mesh_dim must not be None" :=
  rfl

/-- C5: `FSDPMeshInfo` construction fails when `shard_mesh_dim` is unset
and on success derives `shard_mesh_size = mesh.size(shard_mesh_dim)` and
`shard_mesh_rank = rank in the sub-group along shard_mesh_dim`;
`DDPMeshInfo` satisfies the mirrored property for `replicate_mesh_dim`. -/
theorem mesh_info_derivation (mesh : DeviceMesh) (sdim rdim : Option Nat) :
    (sdim = none → ∃ msg, FSDPMeshInfo.construct mesh sdim rdim = Except.error msg) ∧
    (∀ d s, sdim = some d → FSDPMeshInfo.construct mesh sdim rdim = Except.ok s →
      ∃ sz rk, mesh.size d = Except.ok sz ∧ mesh.groupRank d = Except.ok rk ∧
        s.shard_mesh_size = some sz ∧ s.shard_mesh_rank = some rk) ∧
    (rdim = none → ∃ msg, DDPMeshInfo.construct mesh sdim rdim = Except.error msg) ∧
    (∀ d s, rdim = some d → DDPMeshInfo.construct mesh sdim rdim = Except.ok s →
      ∃ sz rk, mesh.size d = Except.ok sz ∧ mesh.groupRank d = Except.ok rk ∧
        s.replicate_mesh_size = some sz ∧ s.replicate_mesh_rank = some rk) := by
  refine ⟨?_, ?_, ?_, ?_⟩
  · rintro rfl
    cases rdim <;>
      simp [FSDPMeshInfo.construct, DataParallelMeshInfo.post_init,
        FSDPMeshInfo.post_init_own, mkMeshInfoState, Bind.bind, Except.bind]
  · rintro d s rfl hok
    simp only [FSDPMeshInfo.construct, DataParallelMeshInfo.post_init,
      FSDPMeshInfo.post_init_own, mkMeshInfoState, Bind.bind, Except.bind] at hok
    revert hok
    cases hsz : DeviceMesh.size mesh d <;>
      cases hrk : DeviceMesh.groupRank mesh d <;>
        simp [Bind.bind, Except.bind] <;>
          (intro hs; subst hs; exact ⟨rfl, rfl⟩)
  · rintro rfl
    cases sdim <;>
      simp [DDPMeshInfo.construct, DataParallelMeshInfo.post_init,
        DDPMeshInfo.post_init_own, mkMeshInfoState, Bind.bind, Except.bind]
  · rintro d s rfl hok
    simp only [DDPMeshInfo.construct, DataParallelMeshInfo.post_init,
      DDPMeshInfo.post_init_own, mkMeshInfoState, Bind.bind, Except.bind] at hok
    revert hok
    cases sdim <;>
      cases hsz : DeviceMesh.size mesh d <;>
        cases hrk : DeviceMesh.groupRank mesh d <;>
          simp [Bind.bind, Except.bind] <;>
            (intro hs; subst hs; exact ⟨rfl, rfl⟩)

/-- Witness instantiating the C5 theorem over the mesh of sizes `[2, 3]`
with current-process coordinates `[1, 2]`: the shard branch at
`shard_mesh_dim = 0` and the failure branch at `shard_mesh_dim = None`. -/
theorem mesh_info_derivation_witness :
    (∃ msg, FSDPMeshInfo.construct ⟨[2, 3], [1, 2]⟩ none (some 1) =
      Except.error msg) ∧
    (∃ sz rk, DeviceMesh.size ⟨[2, 3], [1, 2]⟩ 0 = Except.ok sz ∧
      DeviceMesh.groupRank ⟨[2, 3], [1, 2]⟩ 0 = Except.ok rk ∧
      (⟨⟨[2, 3], [1, 2]⟩, some 0, some 1, some 2, some 1, none,
        none⟩ : MeshInfoState).shard_mesh_size = some sz ∧
      (⟨⟨[2, 3], [1, 2]⟩, some 0, some 1, some 2, some 1, none,
        none⟩ : MeshInfoState).shard_mesh_rank = some rk) := by
  refine ⟨(mesh_info_derivation ⟨[2, 3], [1, 2]⟩ none (some 1)).1 rfl, ?_⟩
  exact (mesh_info_derivation ⟨[2, 3], [1, 2]⟩ (some 0) (some 1)).2.1 0
    ⟨⟨[2, 3], [1, 2]⟩, some 0, some 1, some 2, some 1, none, none⟩ rfl rfl

/-- C1 (refuting evidence): at the claim's own scenario, a mesh with
shard dimension 0 of size 2 and replicate dimension 1 of size 3,
`HSDPMeshInfo` construction succeeds yet leaves `shard_mesh_size` and
`shard_mesh_rank` unset, because `super(FSDPMeshInfo, self)` dispatches
past `FSDPMeshInfo` in the method resolution order and its
validation/derivation body never runs; moreover a missing
`shard_mesh_dim` is not even rejected.  The claim's promise that both
parents' logic runs and `shard_group_size = 2` is exposed fails here. -/
theorem hsdp_construct_never_sets_shard_attrs :
    HSDPMeshInfo.construct ⟨[2, 3], [1, 2]⟩ (some 0) (some 1) =
      Except.ok ⟨⟨[2, 3], [1, 2]⟩, some 0, some 1, none, none, some 3, some 2⟩ ∧
    HSDPMeshInfo.construct ⟨[2, 3], [1, 2]⟩ none (some 1) =
      Except.ok ⟨⟨[2, 3], [1, 2]⟩, none, some 1, none, none, some 3, some 2⟩ :=
  ⟨rfl, rfl⟩

lemma splitBySizes_length : ∀ (ns : List Nat) (xs : List Int),
    (splitBySizes ns xs).length = ns.length
  | [], _ => rfl
  | n :: ns, xs => by simp [splitBySizes, splitBySizes_length ns]

lemma splitBySizes_flatten (ns : List Nat) (xs : List Int) (h : xs.length ≤ ns.sum) :
    (splitBySizes ns xs).flatten = xs := by
  induction ns generalizing xs with
  | nil =>
    have hx : xs = [] := List.eq_nil_of_length_eq_zero (by simpa using h)
    simp [splitBySizes, hx]
  | cons n ns ih =>
    have hh : xs.length ≤ n + ns.sum := by simpa [List.sum_cons] using h
    simp only [splitBySizes, List.flatten_cons]
    rw [ih (xs.drop n) (by simp [List.length_drop]; omega)]
    exact List.take_append_drop n xs

lemma replicate_chunk_sum (d s : Nat) :
    (List.replicate (d / s) s ++ (if d % s = 0 then [] else [d % s])).sum = d := by
  have hdm := Nat.div_add_mod d s
  have hc : d / s * s = s * (d / s) := Nat.mul_comm _ _
  split_ifs with h <;> simp [List.sum_replicate, smul_eq_mul] <;> omega

lemma replicate_chunk_length_le (d n s : Nat) (hs : 0 < s) (hds : d ≤ s * n) :
    (List.replicate (d / s) s ++ (if d % s = 0 then [] else [d % s])).length ≤ n := by
  have hdm := Nat.div_add_mod d s
  split_ifs with h
  · have h1 : s * (d / s) ≤ s * n := by omega
    have h2 : d / s ≤ n := Nat.le_of_mul_le_mul_left h1 hs
    simpa using h2
  · have h1 : s * (d / s) < s * n := by omega
    have h2 : d / s < n := Nat.lt_of_mul_lt_mul_left h1
    simp only [List.length_append, List.length_replicate, List.length_cons,
      List.length_nil]
    omega

lemma ceil_div_le_self (d n : Nat) (hd : 0 < d) (hn : 0 < n) :
    (d + n - 1) / n ≤ d := by
  obtain ⟨a, rfl⟩ : ∃ a, d = a + 1 := ⟨d - 1, by omega⟩
  obtain ⟨b, rfl⟩ : ∃ b, n = b + 1 := ⟨n - 1, by omega⟩
  have hmul : (a + 1) + (b + 1) - 1 ≤ (a + 1) * (b + 1) := by
    have hexp : (a + 1) * (b + 1) = a * b + a + b + 1 := by ring
    omega
  calc (a + 1 + (b + 1) - 1) / (b + 1)
      ≤ (a + 1) * (b + 1) / (b + 1) := Nat.div_le_div_right hmul
    _ = a + 1 := Nat.mul_div_cancel (a + 1) hn

lemma ceil_div_mul_ge (d n : Nat) (hn : 0 < n) : d ≤ (d + n - 1) / n * n := by
  have hdm := Nat.div_add_mod (d + n - 1) n
  have hr : (d + n - 1) % n < n := Nat.mod_lt _ hn
  have hc : (d + n - 1) / n * n = n * ((d + n - 1) / n) := Nat.mul_comm _ _
  omega

lemma torchChunkSizes_sum (d n : Nat) : (torchChunkSizes d n).sum = d := by
  by_cases hd : d = 0
  · subst hd
    simp [torchChunkSizes, List.sum_replicate]
  · simpa [torchChunkSizes, hd] using replicate_chunk_sum d ((d + n - 1) / n)

lemma torchChunkSizes_length_le (d n : Nat) (hn : 0 < n) :
    (torchChunkSizes d n).length ≤ n := by
  by_cases hd : d = 0
  · subst hd
    simp [torchChunkSizes]
  · have hs : 0 < (d + n - 1) / n := Nat.div_pos (by omega) hn
    have hds : d ≤ (d + n - 1) / n * n := ceil_div_mul_ge d n hn
    simpa [torchChunkSizes, hd] using
      replicate_chunk_length_le d n ((d + n - 1) / n) hs hds

lemma torchChunkSizes_length_pos (d n : Nat) (hn : 0 < n) :
    0 < (torchChunkSizes d n).length := by
  by_cases hd : d = 0
  · subst hd
    simpa [torchChunkSizes] using hn
  · have hs : 0 < (d + n - 1) / n := Nat.div_pos (by omega) hn
    have hsled : (d + n - 1) / n ≤ d := ceil_div_le_self d n (by omega) hn
    have hq : 0 < d / ((d + n - 1) / n) := Nat.div_pos hsled hs
    simp only [torchChunkSizes, if_neg hd]
    split_ifs with hmod
    · simpa using hq
    · simp

/-- C3: for every tensor and every `num_chunks` with `1 ≤ N`,
`_chunk_with_empty` returns exactly `N` chunks: the real chunks produced
by the split partition the original data (their concatenation along the
split dimension is the original tensor's data), and any synthesized
trailing chunks have zero length and the original tensor's dtype and
device. -/
theorem chunk_with_empty_spec (t : Tensor) (N : Nat) (hN : 1 ≤ N) :
    ∃ real k, torch.chunk t N = some real ∧
      _chunk_with_empty t N =
        some (real ++ List.replicate k (Tensor.new_empty0 t)) ∧
      (real ++ List.replicate k (Tensor.new_empty0 t)).length = N ∧
      (real.map Tensor.data).flatten = t.data ∧
      ∀ c ∈ real, c.dtype = t.dtype ∧ c.device = t.device := by
  have hN0 : N ≠ 0 := by omega
  set sizes := torchChunkSizes t.data.length N with hsizes
  set real := (splitBySizes sizes t.data).map
    (fun d => (⟨d, t.dtype, t.device, t.requires_grad⟩ : Tensor)) with hreal
  have hchunk : torch.chunk t N = some real := by
    simp [torch.chunk, hN0, hreal, hsizes]
  have hlen : real.length = sizes.length := by
    simp [hreal, splitBySizes_length]
  have hlenle : real.length ≤ N := by
    rw [hlen, hsizes]
    exact torchChunkSizes_length_le _ _ (by omega)
  have hlenpos : 0 < real.length := by
    rw [hlen, hsizes]
    exact torchChunkSizes_length_pos _ _ (by omega)
  have hflat : (real.map Tensor.data).flatten = t.data := by
    rw [hreal, List.map_map]
    have hid : (Tensor.data ∘ fun d =>
        (⟨d, t.dtype, t.device, t.requires_grad⟩ : Tensor)) = id := rfl
    rw [hid, List.map_id]
    exact splitBySizes_flatten _ _ (by rw [hsizes, torchChunkSizes_sum])
  have hdt : ∀ c ∈ real, c.dtype = t.dtype ∧ c.device = t.device := by
    intro c hc
    rw [hreal] at hc
    obtain ⟨d, _, rfl⟩ := List.mem_map.mp hc
    exact ⟨rfl, rfl⟩
  refine ⟨real, N - real.length, hchunk, ?_, ?_, hflat, hdt⟩
  · obtain ⟨c0, rest2, hcons⟩ :=
      List.exists_cons_of_ne_nil (List.ne_nil_of_length_pos hlenpos)
    have hc0mem : c0 ∈ real := by
      rw [hcons]
      exact List.mem_cons_self _ _
    have hc0 : c0.new_empty0 = Tensor.new_empty0 t := by
      obtain ⟨hd1, hd2⟩ := hdt c0 hc0mem
      simp [Tensor.new_empty0, hd1, hd2]
    by_cases hlt : real.length < N
    · rw [_chunk_with_empty, hchunk]
      simp only [Option.bind_eq_bind, Option.some_bind, if_pos hlt]
      rw [hcons]
      simp only []
      rw [← hcons, hc0]
    · have hEq : real.length = N := le_antisymm hlenle (le_of_not_lt hlt)
      rw [_chunk_with_empty, hchunk]
      simp [hlt, hEq]
  · simp only [List.length_append, List.length_replicate]
    omega

/-- Witness instantiating the C3 theorem at a two-element tensor split
into four chunks. -/
theorem chunk_with_empty_spec_witness :
    1 ≤ 4 ∧
    ∃ real k, torch.chunk ⟨[1, 2], "f32", "cpu", false⟩ 4 = some real ∧
      _chunk_with_empty ⟨[1, 2], "f32", "cpu", false⟩ 4 =
        some (real ++ List.replicate k
          (Tensor.new_empty0 ⟨[1, 2], "f32", "cpu", false⟩)) ∧
      (real ++ List.replicate k
        (Tensor.new_empty0 ⟨[1, 2], "f32", "cpu", false⟩)).length = 4 ∧
      (real.map Tensor.data).flatten = (⟨[1, 2], "f32", "cpu", false⟩ : Tensor).data ∧
      ∀ c ∈ real, c.dtype = (⟨[1, 2], "f32", "cpu", false⟩ : Tensor).dtype ∧
        c.device = (⟨[1, 2], "f32", "cpu", false⟩ : Tensor).device :=
  ⟨by decide, chunk_with_empty_spec ⟨[1, 2], "f32", "cpu", false⟩ 4 (by decide)⟩

lemma splitBySizes_rep_zero : ∀ n : Nat,
    splitBySizes (List.replicate n 0) ([] : List Int) = List.replicate n []
  | 0 => rfl
  | n + 1 => by
    simp only [List.replicate_succ, splitBySizes, List.take_nil, List.drop_nil]
    rw [splitBySizes_rep_zero n]

/-- C10: `_chunk_with_empty` is total on tensors of size 0 along the
split dimension: the underlying chunk operation still yields at least
one (empty) real chunk, so the `chunks[0]` access used to synthesize
placeholders never fails and exactly `N` chunks are returned. -/
theorem chunk_with_empty_total_on_empty (t : Tensor) (N : Nat) (hN : 1 ≤ N)
    (h0 : t.data = []) :
    ∃ real, torch.chunk t N = some real ∧ 0 < real.length ∧
      (∀ c ∈ real, c.data = []) ∧
      _chunk_with_empty t N = some real ∧ real.length = N := by
  obtain ⟨data, dt, dev, rg⟩ := t
  simp only at h0
  subst h0
  have hN0 : N ≠ 0 := by omega
  have hchunk : torch.chunk ⟨[], dt, dev, rg⟩ N =
      some (List.replicate N (⟨[], dt, dev, rg⟩ : Tensor)) := by
    simp [torch.chunk, hN0, torchChunkSizes, splitBySizes_rep_zero,
      List.map_replicate]
  refine ⟨List.replicate N ⟨[], dt, dev, rg⟩, hchunk, by simp; omega, ?_, ?_, by simp⟩
  · intro c hc
    have := List.eq_of_mem_replicate hc
    rw [this]
  · rw [_chunk_with_empty, hchunk]
    simp

/-- Witness instantiating the C10 theorem at an empty tensor split into
three chunks. -/
theorem chunk_with_empty_total_on_empty_witness :
    (1 ≤ 3 ∧ (⟨[], "f32", "cpu", false⟩ : Tensor).data = []) ∧
    ∃ real, torch.chunk ⟨[], "f32", "cpu", false⟩ 3 = some real ∧
      0 < real.length ∧ (∀ c ∈ real, c.data = []) ∧
      _chunk_with_empty ⟨[], "f32", "cpu", false⟩ 3 = some real ∧
      real.length = 3 :=
  ⟨⟨by decide, rfl⟩,
    chunk_with_empty_total_on_empty ⟨[], "f32", "cpu", false⟩ 3 (by decide) rfl⟩

/-- C7: the composability check returns `False` exactly when the
module's registry exists and lists the conflicting `"replicate"`
wrapper; it returns `True` when the registry is absent or lists only
other wrappers. -/
theorem is_composable_with_fsdp_spec (m : NnModule) :
    (m.registry = none → _is_composable_with_fsdp m = true) ∧
    (∀ r, m.registry = some r →
      (("replicate" ∈ r → _is_composable_with_fsdp m = false) ∧
       ("replicate" ∉ r → _is_composable_with_fsdp m = true))) := by
  obtain ⟨reg⟩ := m
  refine ⟨?_, ?_⟩
  · rintro rfl
    rfl
  · rintro r rfl
    constructor
    · intro hmem
      simp [_is_composable_with_fsdp, _get_registry, hmem]
    · intro hmem
      simp [_is_composable_with_fsdp, _get_registry, hmem]

/-- Witness instantiating the C7 theorem on a module with a conflicting
registry, one with no registry, and one with a compatible registry. -/
theorem is_composable_with_fsdp_spec_witness :
    _is_composable_with_fsdp ⟨some ["replicate"]⟩ = false ∧
    _is_composable_with_fsdp ⟨none⟩ = true ∧
    _is_composable_with_fsdp ⟨some ["fully_shard"]⟩ = true :=
  ⟨((is_composable_with_fsdp_spec ⟨some ["replicate"]⟩).2 ["replicate"] rfl).1
      (by decide),
    (is_composable_with_fsdp_spec ⟨none⟩).1 rfl,
    ((is_composable_with_fsdp_spec ⟨some ["fully_shard"]⟩).2 ["fully_shard"] rfl).2
      (by decide)⟩

/-- C8: `_from_local_no_grad` returns a view whose global shape is the
given global size, whose stride is the given global stride, and whose
dtype is the local tensor's dtype, storing the local tensor itself (no
copy) and attaching no automatic-differentiation bookkeeping. -/
theorem from_local_no_grad_spec (local_tensor : Tensor) (device_mesh : DeviceMesh)
    (placements : List String) (global_size global_stride : List Nat) :
    (_from_local_no_grad local_tensor device_mesh placements global_size
      global_stride).shape = global_size ∧
    (_from_local_no_grad local_tensor device_mesh placements global_size
      global_stride).stride = global_stride ∧
    (_from_local_no_grad local_tensor device_mesh placements global_size
      global_stride).dtype = local_tensor.dtype ∧
    (_from_local_no_grad local_tensor device_mesh placements global_size
      global_stride)._local_tensor = local_tensor ∧
    (_from_local_no_grad local_tensor device_mesh placements global_size
      global_stride).grad_fn = none :=
  ⟨rfl, rfl, rfl, rfl, rfl⟩

/-- C9: `_raise_assert_with_print` never returns normally: for every
rank and argument list it raises an `AssertionError` carrying the
arguments, after first printing the process rank, the arguments, and the
stack context. -/
theorem raise_assert_with_print_spec (rank : Nat) (args : List String) :
    _raise_assert_with_print rank args =
      ([PrintEvent.rankLine rank, PrintEvent.argsLine args, PrintEvent.stackTrace],
        Except.error args) :=
  rfl
